import Mathlib

/-!
Verification of the stock-monitoring browser extension's scheduler, circuit
breaker, stock-state store and checkout orchestrator.

The definitions below are a shallow embedding of the service-worker code:
the process-wide mutable globals become a single explicit state record
(`BgState`), message handlers and the alarm listener become state-transition
functions, asynchronous adapter calls become `Except`-valued inputs, random
choices (jitter, product skipping, stagger delays, adapter latency) become
explicit function arguments, and wall-clock timestamps become `Nat` values
supplied by the caller.  Each definition mirrors one function or handler of
the source; the doc comments name the source symbol it embeds.
-/

deriving instance DecidableEq for Except

namespace InStockMonitor

/-- Circuit-breaker threshold (`MAX_FAILURES` in the source). -/
def MAX_FAILURES : Nat := 3

/-- Minimum spacing between check cycles in ms (`MIN_CHECK_INTERVAL_MS`). -/
def MIN_CHECK_INTERVAL_MS : Nat := 30000

/-- Circuit-breaker cooldown in ms (`FAILURE_COOLDOWN_MS`, 4 hours). -/
def FAILURE_COOLDOWN_MS : Nat := 4 * 60 * 60 * 1000

/-- Hard ceiling on tabs created per session (`MAX_TABS_PER_SESSION`). -/
def MAX_TABS_PER_SESSION : Nat := 10

/-- A monitored product as built by the `addProduct` handler. -/
structure Product where
  name : String
  url : String
  addToCartUrl : String
  autoCheckout : Bool
deriving Repr, DecidableEq

/-- One entry of the `stockStatus` map.  The source stores timestamps as
locale strings of the current time; they are modelled as `Nat` instants. -/
structure StockRecord where
  inStock : Bool
  lastChecked : Nat
  lastInStock : Option Nat
deriving Repr, DecidableEq

/-- The service worker's global variables plus the `chrome.storage.sync`
keys it reads and writes, gathered into one state record.  `alarm` is the
`checkStock` alarm when present, carrying the clamped base interval in
seconds and the jitter percentage chosen at creation; `resetTimers` holds
the deadlines of pending circuit-breaker reset timeouts. -/
structure BgState where
  monitoredProducts : List Product
  isMonitoring : Bool
  checkoutInProgress : Bool
  stockStatus : List (String × StockRecord)
  consecutiveFailures : Nat
  lastCheckTime : Nat
  activeTabs : List Nat
  tabsCreatedThisSession : Nat
  alarm : Option (Nat × Nat)
  resetTimers : List Nat
  storedCheckInterval : Nat
  purchaseCount : Nat
  purchaseLimit : Nat
deriving Repr, DecidableEq

/-- Read `stockStatus[url]`. -/
def lookupStatus (m : List (String × StockRecord)) (url : String) :
    Option StockRecord :=
  (m.find? (fun e => e.1 == url)).map (fun e => e.2)

/-- Write `stockStatus[url] = r` (JavaScript object assignment: replace the
existing key, otherwise append). -/
def setStatus (m : List (String × StockRecord)) (url : String)
    (r : StockRecord) : List (String × StockRecord) :=
  if m.any (fun e => e.1 == url) then
    m.map (fun e => if e.1 == url then (url, r) else e)
  else m ++ [(url, r)]

/-- `checkProductStock` (part_001 lines 1961-1985, likewise background.js
lines 77-101): the retailer dispatch runs inside a `try` whose `catch`
logs the error and returns `false`.  The adapter outcome is the input:
`Except.error` is a throw/reject, `Except.ok b` a clean boolean answer. -/
def checkProductStock (adapterResult : Except String Bool) : Bool :=
  match adapterResult with
  | Except.ok b => b
  | Except.error _ => false

/-- The in-stock transition predicate, from the guard
`inStock && (!previousStatus || !previousStatus.inStock)` in
`checkAllProductsStock`. -/
def transitionedToInStock (previous : Option StockRecord) (inStock : Bool) :
    Bool :=
  inStock && !(match previous with
               | some r => r.inStock
               | none => false)

/-- The `stockStatus[product.url] = ...` update performed by the check loop
(part_001 lines 1873-1879): `lastInStock` is refreshed on an in-stock
observation and otherwise carried over from the previous record
(`previousStatus?.lastInStock || null`). -/
def checkUpdate (previous : Option StockRecord) (inStock : Bool)
    (now : Nat) : StockRecord :=
  { inStock := inStock
  , lastChecked := now
  , lastInStock := if inStock then some now
                   else previous.bind (fun r => r.lastInStock) }

/-- The record written by the `addProduct` handler's immediate check
(part_001 lines 2337-2343): `lastInStock: inStock ? now : null`, with no
reference to any previous record for the same URL. -/
def addProductRecord (inStock : Bool) (now : Nat) : StockRecord :=
  { inStock := inStock
  , lastChecked := now
  , lastInStock := if inStock then some now else none }

/-- The body of one iteration of the product loop in
`checkAllProductsStock` (part_001 lines 1869-1894), on the non-throwing
path: compute the stock result (the router never throws), overwrite the
stock record, decide whether `attemptCheckout` is invoked
(`transitioned && isMonitoring && product.autoCheckout === true`), and
reset `consecutiveFailures` to 0 at the end of the `try` block.  The
returned boolean reports whether `attemptCheckout` was invoked; the
`checkoutInProgress` flag is set just before that call and cleared right
after it, so it is restored by the end of the iteration. -/
def productLoopBody (st : BgState) (p : Product)
    (adapterResult : Except String Bool) (now : Nat) : BgState × Bool :=
  let inStock := checkProductStock adapterResult
  let previous := lookupStatus st.stockStatus p.url
  let record := checkUpdate previous inStock now
  let transitioned := transitionedToInStock previous inStock
  let invoke := transitioned && st.isMonitoring && p.autoCheckout
  ({ st with stockStatus := setStatus st.stockStatus p.url record
           , consecutiveFailures := 0 }, invoke)

/-- The `catch` branch of the product loop (part_001 lines 1895-1908):
increment `consecutiveFailures` and, if the threshold is reached, schedule
a breaker reset `FAILURE_COOLDOWN_MS` after the failure time. -/
def loopCatchStep (st : BgState) (t : Nat) : BgState :=
  let f := st.consecutiveFailures + 1
  { st with consecutiveFailures := f
          , resetTimers :=
              if MAX_FAILURES ≤ f then st.resetTimers ++ [t + FAILURE_COOLDOWN_MS]
              else st.resetTimers }

/-- The scheduled breaker-reset timeout firing (part_001 lines 1904-1907):
set `consecutiveFailures` to 0.  The caller may only fire a deadline in
`resetTimers` once the wall clock has reached it. -/
def breakerResetStep (st : BgState) (d : Nat) : BgState :=
  { st with consecutiveFailures := 0, resetTimers := st.resetTimers.erase d }

/-- One selected product check of a cycle: whether the ~10% random skip
fired, the adapter outcome, and the wall-clock instant of the check. -/
structure CycleInput where
  product : Product
  skip : Bool
  adapterResult : Except String Bool
  time : Nat
deriving Repr, DecidableEq

/-- Outcome of running (or not running) a check cycle: the final state, the
products for which `attemptCheckout` was invoked, in order, and the number
of adapter stock-check calls made. -/
structure CycleResult where
  state : BgState
  invoked : List Product
  adapterCalls : Nat
deriving Repr, DecidableEq

/-- The product loop of `checkAllProductsStock` (part_001 lines
1857-1910): iterate over the selected products, honouring the random skip,
threading the state through `productLoopBody`. -/
def runCycleLoop (st : BgState) : List CycleInput → CycleResult
  | [] => { state := st, invoked := [], adapterCalls := 0 }
  | c :: rest =>
      if c.skip then runCycleLoop st rest
      else
        let step := productLoopBody st c.product c.adapterResult c.time
        let tail := runCycleLoop step.1 rest
        { state := tail.state
        , invoked := (if step.2 then [c.product] else []) ++ tail.invoked
        , adapterCalls := tail.adapterCalls + 1 }

/-- `checkAllProductsStock` (part_001 lines 1835-1919): bail out when there
are no monitored products or a checkout is in progress, otherwise run the
loop over the selected checks (the random subset selection and skips are
inputs). -/
def checkAllProductsStock (st : BgState) (checks : List CycleInput) :
    CycleResult :=
  if st.monitoredProducts.length == 0 || st.checkoutInProgress then
    { state := st, invoked := [], adapterCalls := 0 }
  else runCycleLoop st checks

/-- A cycle result representing "nothing ran". -/
def noCycle (st : BgState) : CycleResult :=
  { state := st, invoked := [], adapterCalls := 0 }

/-- `setupMonitoring` (part_001 lines 1778-1801): clear existing alarms,
clamp the interval to the 30-second safety minimum, and create the
`checkStock` alarm with a jittered period; the jitter draw is the
`jitterPct` input (0-30 in the source). -/
def clampInterval (seconds : Nat) : Nat :=
  if seconds < 30 then 30 else seconds

/-- See `clampInterval`; `setupMonitoring` records the new alarm. -/
def setupMonitoring (st : BgState) (intervalSeconds : Nat)
    (jitterPct : Nat) : BgState :=
  { st with alarm := some (clampInterval intervalSeconds, jitterPct) }

/-- The `updateCheckInterval` message handler (part_001 lines 2381-2386):
`const seconds = Math.max(30, message.seconds)`, re-create the alarm, and
persist `checkInterval`. -/
def updateCheckIntervalStep (st : BgState) (seconds : Nat)
    (jitterPct : Nat) : BgState :=
  let s := Nat.max 30 seconds
  let st1 := setupMonitoring st s jitterPct
  { st1 with storedCheckInterval := s }

/-- The `startMonitoring` message handler (part_001 lines 2210-2218): set
the flag, reset the session counters, and immediately run one check
cycle.  It does not create an alarm. -/
def startMonitoringStep (st : BgState) (checks : List CycleInput) :
    CycleResult :=
  let st1 := { st with isMonitoring := true
                     , tabsCreatedThisSession := 0
                     , consecutiveFailures := 0 }
  checkAllProductsStock st1 checks

/-- The `stopMonitoring` message handler (part_001 lines 2220-2229):
disable monitoring, clear all alarms, close all monitoring tabs. -/
def stopMonitoringStep (st : BgState) : BgState :=
  { st with isMonitoring := false, alarm := none, activeTabs := [] }

/-- The `emergencyStop` message handler (part_001 lines 2454-2462):
unconditionally disable monitoring, clear the checkout flag, clear all
alarms and close all monitoring tabs. -/
def emergencyStopStep (st : BgState) : BgState :=
  { st with isMonitoring := false
          , checkoutInProgress := false
          , alarm := none
          , activeTabs := [] }

/-- The `forceCheck` message handler (part_001 lines 2388-2397): run a
cycle only when monitoring is active, otherwise answer
`success: false` without any adapter call.  The boolean is the response's
`success` field. -/
def forceCheckStep (st : BgState) (checks : List CycleInput) :
    CycleResult × Bool :=
  if st.isMonitoring then (checkAllProductsStock st checks, true)
  else (noCycle st, false)

/-- `alarmListener` (part_001 lines 1804-1832) together with the fact that
Chrome only delivers an alarm that exists: skip when the breaker is open,
force-stop when the tab ceiling is hit, skip when the last check was less
than `MIN_CHECK_INTERVAL_MS` ago, otherwise stamp `lastCheckTime` and run
the cycle.  The boolean reports whether `checkAllProductsStock` ran. -/
def alarmFireStep (st : BgState) (t : Nat) (checks : List CycleInput) :
    CycleResult × Bool :=
  if st.alarm.isSome && st.isMonitoring then
    if MAX_FAILURES ≤ st.consecutiveFailures then (noCycle st, false)
    else if MAX_TABS_PER_SESSION ≤ st.tabsCreatedThisSession then
      ({ state := { st with isMonitoring := false, alarm := none }
       , invoked := [], adapterCalls := 0 }, false)
    else if t - st.lastCheckTime < MIN_CHECK_INTERVAL_MS then (noCycle st, false)
    else (checkAllProductsStock { st with lastCheckTime := t } checks, true)
  else (noCycle st, false)

/-- A run of alarm firings: fold `alarmFireStep` over a list of
`(time, selected checks)` pairs, counting how many firings actually ran a
check cycle. -/
def runAlarmTrace (st : BgState) : List (Nat × List CycleInput) →
    BgState × Nat
  | [] => (st, 0)
  | e :: rest =>
      let step := alarmFireStep st e.1 e.2
      let tail := runAlarmTrace step.1.state rest
      (tail.1, (if step.2 then 1 else 0) + tail.2)

/-- An external trigger arriving after some state transition: an alarm
firing or a `forceCheck` request. -/
inductive TriggerEvent where
  | alarmFire (t : Nat) (checks : List CycleInput) : TriggerEvent
  | forceCheck (checks : List CycleInput) : TriggerEvent
deriving Repr

/-- Apply one trigger; the `Nat` is the number of adapter calls it made. -/
def triggerStep (st : BgState) : TriggerEvent → BgState × Nat
  | TriggerEvent.alarmFire t checks =>
      let r := alarmFireStep st t checks
      (r.1.state, r.1.adapterCalls)
  | TriggerEvent.forceCheck checks =>
      let r := forceCheckStep st checks
      (r.1.state, r.1.adapterCalls)

/-- Fold a list of triggers, accumulating the number of adapter calls. -/
def runTriggers (st : BgState) : List TriggerEvent → BgState × Nat
  | [] => (st, 0)
  | e :: rest =>
      let step := triggerStep st e
      let tail := runTriggers step.1 rest
      (tail.1, step.2 + tail.2)

/-- Response of the `addProduct` message handler. -/
structure AddProductResult where
  state : BgState
  success : Bool
  products : List Product
  stock : List (String × StockRecord)
deriving Repr, DecidableEq

/-- The `addProduct` message handler (part_001 lines 2317-2369, likewise
background.js lines 1118-1161): push the normalized product onto
`monitoredProducts`, persist the list, and - when monitoring - run an
immediate stock check whose result is written with `addProductRecord`;
respond with `success`, the product list and the stock map. -/
def addProductStep (st : BgState) (p : Product)
    (checkResult : Except String Bool) (now : Nat) : AddProductResult :=
  let st1 := { st with monitoredProducts := st.monitoredProducts ++ [p] }
  if st1.isMonitoring then
    let inStock := checkProductStock checkResult
    let st2 := { st1 with stockStatus :=
                   setStatus st1.stockStatus p.url (addProductRecord inStock now) }
    { state := st2, success := true
    , products := st2.monitoredProducts, stock := st2.stockStatus }
  else
    { state := st1, success := true
    , products := st1.monitoredProducts, stock := st1.stockStatus }

/-- Sequence of stock-record updates applied to one product's record:
`runChecks` folds the check-loop update (`checkUpdate`) over successive
`(inStock, time)` observations. -/
def runChecks : Option StockRecord → List (Bool × Nat) → Option StockRecord
  | prev, [] => prev
  | prev, e :: rest => runChecks (some (checkUpdate prev e.1 e.2)) rest

/-- Observable events emitted by a checkout attempt, in program order:
a persistent `purchaseCount` write, and the success/failure report
returned to the caller. -/
inductive CartEvent where
  | incr (newCount : Nat) : CartEvent
  | reportSuccess : CartEvent
  | reportFailure : CartEvent
deriving Repr, DecidableEq

/-- Is the event a `purchaseCount` increment? -/
def isIncr : CartEvent → Bool
  | CartEvent.incr _ => true
  | _ => false

/-- Environment outcomes consumed by `addToCartTarget`: whether a direct
cart URL is configured, whether the tab for it could be opened, whether a
tab navigation to the cart page is ever observed afterwards, and whether
the fallback page-automation script reports success. -/
structure CartEnv where
  hasDirectUrl : Bool
  directTabOpens : Bool
  cartNavigationObserved : Bool
  fallbackScriptSucceeds : Bool
deriving Repr, DecidableEq

/-- `addToCartTarget` (background.js lines 2432-2500, identical in part_001
lines 2468-2538 up to the `createSafeTab` guard): on the direct-URL path
the function registers a `tabs.onUpdated` listener that writes
`purchaseCount + 1` when a navigation to the cart page is later observed,
and returns `success: true` immediately; on the fallback path it runs the
page-automation script and, if the script succeeded, awaits the
`purchaseCount + 1` write before returning the script's result.  The
returned trace lists the observable events in temporal order. -/
def addToCartTarget (purchaseCount : Nat) (env : CartEnv) :
    List CartEvent × Bool :=
  if env.hasDirectUrl && env.directTabOpens then
    (CartEvent.reportSuccess ::
       (if env.cartNavigationObserved then [CartEvent.incr (purchaseCount + 1)]
        else []), true)
  else if env.fallbackScriptSucceeds then
    ([CartEvent.incr (purchaseCount + 1), CartEvent.reportSuccess], true)
  else
    ([CartEvent.reportFailure], false)

/-- `attemptCheckout` (background.js lines 2401-2429): read
`purchaseCount` and `purchaseLimit`, refuse when the limit is reached,
otherwise delegate to the retailer add-to-cart function with the count
that was read. -/
def bgAttemptCheckout (purchaseCount purchaseLimit : Nat) (env : CartEnv) :
    List CartEvent × Bool :=
  if purchaseLimit ≤ purchaseCount then ([], false)
  else addToCartTarget purchaseCount env

/-- `attemptCheckout` as it stands in part_001 (lines 2190-2204): guard on
monitoring and the product flag, then a disabled stub returning `false`
with no adapter call and no state change. -/
def attemptCheckoutStub (isMonitoring : Bool) (p : Product) : Bool :=
  if !isMonitoring || !p.autoCheckout then false
  else false

/-- One check job of a cycle, for the concurrency analysis: its random
stagger delay, the duration of its adapter call, and whether the random
skip fired.  All three are awaited in sequence by the loop. -/
structure CheckJob where
  delayMs : Nat
  durationMs : Nat
  skip : Bool
deriving Repr, DecidableEq

/-- The execution timeline of the product loop (part_001 lines 1857-1910):
starting at `t`, each job first waits out its stagger delay; a skipped job
performs no check; otherwise the adapter call occupies the half-open
interval from the post-delay instant to that instant plus the call's
duration, and the loop resumes only when the call completes. -/
def checkIntervals : Nat → List CheckJob → List (Nat × Nat)
  | _, [] => []
  | t, j :: rest =>
      if j.skip then checkIntervals (t + j.delayMs) rest
      else (t + j.delayMs, t + j.delayMs + j.durationMs) ::
             checkIntervals (t + j.delayMs + j.durationMs) rest

/-- Number of checks in flight at instant `t`. -/
def inFlight (intervals : List (Nat × Nat)) (t : Nat) : Nat :=
  (intervals.filter (fun iv => iv.1 ≤ t && t < iv.2)).length

/-- A product used in the concrete examples below. -/
def prodA : Product :=
  { name := "a", url := "u", addToCartUrl := "", autoCheckout := true }

/-- A quiescent base state for the concrete examples. -/
def st0 : BgState :=
  { monitoredProducts := []
  , isMonitoring := false
  , checkoutInProgress := false
  , stockStatus := []
  , consecutiveFailures := 0
  , lastCheckTime := 0
  , activeTabs := []
  , tabsCreatedThisSession := 0
  , alarm := none
  , resetTimers := []
  , storedCheckInterval := 60
  , purchaseCount := 0
  , purchaseLimit := 3 }

/-- Monitoring on, one product, purchase limit already reached. -/
def stLim : BgState :=
  { st0 with monitoredProducts := [prodA]
           , isMonitoring := true
           , purchaseCount := 3
           , purchaseLimit := 3 }

/-- Monitoring on, one product whose record has `lastInStock` set. -/
def stSeen : BgState :=
  { st0 with monitoredProducts := [prodA]
           , isMonitoring := true
           , stockStatus :=
               [("u", { inStock := true, lastChecked := 0, lastInStock := some 0 })] }

/-- Monitoring on, two prior consecutive failures. -/
def stFail2 : BgState :=
  { st0 with monitoredProducts := [prodA]
           , isMonitoring := true
           , consecutiveFailures := 2 }

/-- Monitoring on, breaker tripped, alarm present. -/
def stTripped : BgState :=
  { st0 with monitoredProducts := [prodA]
           , isMonitoring := true
           , consecutiveFailures := 3
           , alarm := some (60, 0) }

/-- Monitoring on, alarm with base interval 60 seconds. -/
def stSixty : BgState :=
  { st0 with monitoredProducts := [prodA]
           , isMonitoring := true
           , alarm := some (60, 0)
           , storedCheckInterval := 60 }

/-- Any trigger arriving while monitoring is disabled is a no-op with zero
adapter calls. -/
theorem triggerStep_disabled (st : BgState) (h : st.isMonitoring = false)
    (e : TriggerEvent) : triggerStep st e = (st, 0) := by
  cases e with
  | alarmFire t checks => simp [triggerStep, alarmFireStep, h, noCycle]
  | forceCheck checks => simp [triggerStep, forceCheckStep, h, noCycle]

/-- A whole trace of triggers while monitoring is disabled makes no adapter
call and leaves the state unchanged. -/
theorem runTriggers_disabled (st : BgState) (h : st.isMonitoring = false) :
    ∀ evs, runTriggers st evs = (st, 0) := by
  intro evs
  induction evs with
  | nil => rfl
  | cons e rest ih => simp [runTriggers, triggerStep_disabled st h e, ih]

/-- C5: after `emergencyStop` returns, monitoring is disabled, the pending
alarm is cleared, the checkout-in-progress flag is cleared, all tracked
tabs are reclaimed, and every subsequent trigger trace (alarm firings and
forceCheck requests, in any order) makes zero adapter calls and leaves the
state unchanged until monitoring is explicitly re-enabled. -/
theorem C5_emergency_stop (st : BgState) (evs : List TriggerEvent) :
    (emergencyStopStep st).isMonitoring = false
  ∧ (emergencyStopStep st).checkoutInProgress = false
  ∧ (emergencyStopStep st).alarm = none
  ∧ (emergencyStopStep st).activeTabs = []
  ∧ runTriggers (emergencyStopStep st) evs = (emergencyStopStep st, 0) :=
  ⟨rfl, rfl, rfl, rfl, runTriggers_disabled _ rfl evs⟩

/-- C6 counterexample: an adapter throw is swallowed by
`checkProductStock`'s catch and returned as `false`; the check loop then
takes the success path, recording an out-of-stock observation and
resetting `consecutiveFailures` from 2 to 0 instead of incrementing it
to 3. -/
theorem C6_counterexample :
    checkProductStock (Except.error "network error") = false
  ∧ ((productLoopBody stFail2 prodA (Except.error "network error") 5).1).consecutiveFailures = 0
  ∧ lookupStatus ((productLoopBody stFail2 prodA (Except.error "network error") 5).1).stockStatus "u"
      = some { inStock := false, lastChecked := 5, lastInStock := none } := by
  decide

/-- C6 (amended): the stock-check router catches adapter throws internally
and reports them as `false`, so the per-product loop records an adapter
failure as an out-of-stock observation and resets the consecutive-failure
counter; the counter is incremented only by the loop's own catch branch,
which adapter throws can no longer reach. -/
theorem C6_adapter_error_handling :
    (∀ e, checkProductStock (Except.error e) = false)
  ∧ (∀ st p e now,
      ((productLoopBody st p (Except.error e) now).1).consecutiveFailures = 0)
  ∧ (∀ st t, (loopCatchStep st t).consecutiveFailures = st.consecutiveFailures + 1) :=
  ⟨fun _ => rfl, fun _ _ _ _ => rfl, fun _ _ => rfl⟩

/-- C7 counterexample: re-adding a product whose URL is already monitored
appends a second entry instead of replacing the first, so the monitored
list holds two entries with the same URL. -/
theorem C7_counterexample :
    ((addProductStep { st0 with monitoredProducts := [prodA] } prodA
        (Except.ok false) 9).products.filter (fun q => q.url == prodA.url)).length = 2 := by
  decide

/-- C7 (amended): `addProduct` responds with `success`, the product list
and the stock map, but appends the new product unconditionally; it never
replaces an existing entry with the same URL, so re-adding can create
duplicates. -/
theorem C7_addProduct_appends (st : BgState) (p : Product)
    (r : Except String Bool) (now : Nat) :
    (addProductStep st p r now).success = true
  ∧ (addProductStep st p r now).products = st.monitoredProducts ++ [p] := by
  cases h : st.isMonitoring <;> simp [addProductStep, h]

/-- C8 counterexample: with the alarm running on a base interval of 60
seconds, `updateCheckInterval(0)` does not keep the previous valid
interval: it re-creates the alarm with the clamped 30-second floor. -/
theorem C8_counterexample :
    (updateCheckIntervalStep stSixty 0 0).alarm = some (30, 0)
  ∧ stSixty.alarm = some (60, 0)
  ∧ (updateCheckIntervalStep stSixty 0 0).alarm ≠ stSixty.alarm := by
  decide

/-- C8 (amended): `updateCheckInterval` clamps every request below the
30-second floor up to 30 (both in the handler and in `setupMonitoring`),
re-creates the alarm with the clamped value as its new base interval, and
persists the clamped value; it does not retain the previous interval. -/
theorem C8_interval_clamped (st : BgState) (s j : Nat) :
    (updateCheckIntervalStep st s j).alarm = some (Nat.max 30 s, j)
  ∧ 30 ≤ Nat.max 30 s
  ∧ (updateCheckIntervalStep st s j).storedCheckInterval = Nat.max 30 s := by
  refine ⟨?_, Nat.le_max_left _ _, rfl⟩
  show some (clampInterval (Nat.max 30 s), j) = some (Nat.max 30 s, j)
  rw [clampInterval, if_neg (Nat.not_lt.mpr (Nat.le_max_left 30 s))]

/-- C2 counterexample: with the purchase limit already reached
(`purchaseCount = purchaseLimit = 3`), a fresh in-stock transition on a
product with auto-checkout enabled still invokes `attemptCheckout`; the
`purchaseCount < purchaseLimit` test is not part of the invocation gate. -/
theorem C2_counterexample :
    (checkAllProductsStock stLim [⟨prodA, false, Except.ok true, 5⟩]).invoked = [prodA]
  ∧ ¬(stLim.purchaseCount < stLim.purchaseLimit) := by
  decide

/-- C2 (amended): within a cycle, `attemptCheckout` is invoked for a
checked product exactly when the in-stock transition predicate holds AND
monitoring is enabled AND the product's auto-checkout flag is set; a cycle
runs at all only when some product is monitored and no checkout is in
progress.  The `purchaseCount < purchaseLimit` test does not gate the
invocation - it is performed inside the checkout routine itself. -/
theorem C2_checkout_gate :
    (∀ st p r now, ((productLoopBody st p r now).2 = true ↔
        (transitionedToInStock (lookupStatus st.stockStatus p.url)
            (checkProductStock r) = true
         ∧ st.isMonitoring = true ∧ p.autoCheckout = true)))
  ∧ (∀ st checks, st.checkoutInProgress = true →
      (checkAllProductsStock st checks).invoked = [])
  ∧ (∀ st checks, st.monitoredProducts = [] →
      (checkAllProductsStock st checks).invoked = []) := by
  refine ⟨?_, ?_, ?_⟩
  · intro st p r now
    simp [productLoopBody, Bool.and_eq_true, and_assoc]
  · intro st checks h
    simp [checkAllProductsStock, h]
  · intro st checks h
    simp [checkAllProductsStock, h]

/-- Witness for C2: with a checkout in progress, a cycle that would
otherwise trigger a checkout invokes none. -/
theorem C2_checkout_gate_witness :
    (checkAllProductsStock { stLim with checkoutInProgress := true }
       [⟨prodA, false, Except.ok true, 5⟩]).invoked = [] :=
  C2_checkout_gate.2.1 { stLim with checkoutInProgress := true }
    [⟨prodA, false, Except.ok true, 5⟩] rfl

/-- C1 counterexample: on the direct-cart-URL path, `addToCartTarget`
reports success immediately and only registers a listener that will write
the incremented `purchaseCount` if a cart navigation is observed later -
so the increment happens strictly after reporting success, or (when no
cart navigation ever occurs) not at all even though success was
reported. -/
theorem C1_counterexample :
    (bgAttemptCheckout 0 3 ⟨true, true, true, false⟩).1
      = [CartEvent.reportSuccess, CartEvent.incr 1]
  ∧ (bgAttemptCheckout 0 3 ⟨true, true, false, false⟩).2 = true
  ∧ ((bgAttemptCheckout 0 3 ⟨true, true, false, false⟩).1.filter isIncr) = [] := by
  decide

/-- C1 (amended): an automatic checkout attempt never writes a
`purchaseCount` above `purchaseLimit` (the attempt is refused once the
limit is reached, and each increment stores the previously read count plus
one), and performs at most one increment; on the page-automation fallback
path the increment is persisted before success is reported.  On the
direct-cart-URL path, however, success is reported first and the increment
is deferred to a cart-navigation listener. -/
theorem C1_purchase_increment (count limit : Nat) (env : CartEnv) :
    (∀ n, CartEvent.incr n ∈ (bgAttemptCheckout count limit env).1 → n ≤ limit)
  ∧ ((bgAttemptCheckout count limit env).1.filter isIncr).length ≤ 1
  ∧ (env.hasDirectUrl = false → (bgAttemptCheckout count limit env).2 = true →
      (bgAttemptCheckout count limit env).1
        = [CartEvent.incr (count + 1), CartEvent.reportSuccess]) := by
  by_cases hl : limit ≤ count
  · simp [bgAttemptCheckout, hl]
  · have hcl : count + 1 ≤ limit := by omega
    by_cases hd : (env.hasDirectUrl && env.directTabOpens) = true
    · have hdu : env.hasDirectUrl = true := by
        have h2 := hd
        simp only [Bool.and_eq_true] at h2
        exact h2.1
      by_cases hn : env.cartNavigationObserved = true
      · refine ⟨?_, ?_, ?_⟩
        · intro n hmem
          simp [bgAttemptCheckout, addToCartTarget, hl, hd, hn] at hmem
          omega
        · simp [bgAttemptCheckout, addToCartTarget, hl, hd, hn, isIncr]
        · intro hfalse
          rw [hdu] at hfalse
          exact absurd hfalse (by simp)
      · refine ⟨?_, ?_, ?_⟩
        · intro n hmem
          simp [bgAttemptCheckout, addToCartTarget, hl, hd, hn] at hmem
        · simp [bgAttemptCheckout, addToCartTarget, hl, hd, hn, isIncr]
        · intro hfalse
          rw [hdu] at hfalse
          exact absurd hfalse (by simp)
    · by_cases hf : env.fallbackScriptSucceeds = true
      · refine ⟨?_, ?_, ?_⟩
        · intro n hmem
          simp [bgAttemptCheckout, addToCartTarget, hl, hd, hf] at hmem
          omega
        · simp [bgAttemptCheckout, addToCartTarget, hl, hd, hf, isIncr]
        · intro _ _
          simp [bgAttemptCheckout, addToCartTarget, hl, hd, hf]
      · refine ⟨?_, ?_, ?_⟩
        · intro n hmem
          simp [bgAttemptCheckout, addToCartTarget, hl, hd, hf] at hmem
        · simp [bgAttemptCheckout, addToCartTarget, hl, hd, hf, isIncr]
        · intro _ hsucc
          have : (bgAttemptCheckout count limit env).2 = false := by
            simp [bgAttemptCheckout, addToCartTarget, hl, hd, hf]
          rw [hsucc] at this
          exact absurd this (by simp)

/-- Witness for C1: a fallback-path attempt below the limit persists the
increment before reporting success. -/
theorem C1_purchase_increment_witness :
    (bgAttemptCheckout 0 3 ⟨false, false, false, true⟩).1
      = [CartEvent.incr 1, CartEvent.reportSuccess] :=
  (C1_purchase_increment 0 3 ⟨false, false, false, true⟩).2.2 rfl rfl

/-- C3 counterexample: the product's record has `lastInStock` set (from an
earlier in-stock observation); re-adding the product while monitoring,
with the immediate check reporting out-of-stock, overwrites the record
with `lastInStock = null` - a later out-of-stock observation clears the
previously set timestamp. -/
theorem C3_counterexample :
    lookupStatus stSeen.stockStatus "u"
      = some { inStock := true, lastChecked := 0, lastInStock := some 0 }
  ∧ lookupStatus ((addProductStep stSeen prodA (Except.ok false) 1).state).stockStatus "u"
      = some { inStock := false, lastChecked := 1, lastInStock := none } := by
  decide

/-- C3 (amended): under the check loop's update alone, `lastInStockAt`
is set by every in-stock observation, and once set it is never cleared and
never decreases across any sequence of check results with non-decreasing
timestamps.  The `addProduct` handler's overwrite is the exception: it
discards the previous record, so a re-add can reset `lastInStockAt` to
null. -/
theorem C3_lastInStock_monotone :
    (∀ prev now, (checkUpdate prev true now).lastInStock = some now)
  ∧ (∀ (r : StockRecord) (s : Nat) (evs : List (Bool × Nat)),
      r.lastInStock = some s →
      (s :: evs.map Prod.snd).Pairwise (· ≤ ·) →
      ∃ r2 s2, runChecks (some r) evs = some r2 ∧ r2.lastInStock = some s2 ∧ s ≤ s2) := by
  constructor
  · intro prev now; rfl
  · intro r s evs
    induction evs generalizing r s with
    | nil => intro h _; exact ⟨r, s, rfl, h, Nat.le_refl s⟩
    | cons e rest ih =>
      intro h hp
      rcases e with ⟨b, t⟩
      have hst : s ≤ t := (List.pairwise_cons.mp hp).1 t (by simp)
      cases b with
      | true =>
        have h1 : (checkUpdate (some r) true t).lastInStock = some t := rfl
        have hp1 : (t :: rest.map Prod.snd).Pairwise (· ≤ ·) :=
          (List.pairwise_cons.mp hp).2
        obtain ⟨r2, s2, he, hl2, hle⟩ := ih (checkUpdate (some r) true t) t h1 hp1
        exact ⟨r2, s2, he, hl2, Nat.le_trans hst hle⟩
      | false =>
        have h1 : (checkUpdate (some r) false t).lastInStock = some s := by
          simp [checkUpdate, h]
        have hp1 : (s :: rest.map Prod.snd).Pairwise (· ≤ ·) := by
          refine List.Pairwise.sublist ?_ hp
          exact (List.sublist_cons_self t (rest.map Prod.snd)).cons₂ s
        obtain ⟨r2, s2, he, hl2, hle⟩ := ih (checkUpdate (some r) false t) s h1 hp1
        exact ⟨r2, s2, he, hl2, hle⟩

/-- Witness for C3: a record with `lastInStock = 2` stays set and
non-decreasing across an out-of-stock check at 5 and an in-stock check
at 7. -/
theorem C3_lastInStock_monotone_witness :
    ∃ r2 s2, runChecks (some { inStock := true, lastChecked := 2, lastInStock := some 2 })
        [(false, 5), (true, 7)] = some r2 ∧ r2.lastInStock = some s2 ∧ 2 ≤ s2 :=
  C3_lastInStock_monotone.2
    { inStock := true, lastChecked := 2, lastInStock := some 2 } 2
    [(false, 5), (true, 7)] rfl (by decide)

/-- While the breaker is open, an alarm firing neither runs a check nor
changes the state. -/
theorem alarmFireStep_breaker (st : BgState) (t : Nat) (checks : List CycleInput)
    (h : MAX_FAILURES ≤ st.consecutiveFailures) :
    alarmFireStep st t checks = (noCycle st, false) := by
  by_cases hc : (st.alarm.isSome && st.isMonitoring) = true <;>
    simp [alarmFireStep, hc, h]

/-- C4: once `consecutiveFailures` has reached the threshold, no alarm
firing runs a check (the state, the counter included, is unchanged by any
trace of alarm firings, so the breaker stays open until the scheduled
reset); the failure that reaches the threshold schedules a reset exactly
`FAILURE_COOLDOWN_MS` (4 hours) later; the reset firing sets the counter
back to 0 automatically; and a successfully completed product check resets
the counter to 0. -/
theorem C4_circuit_breaker :
    (∀ st evs, MAX_FAILURES ≤ st.consecutiveFailures → runAlarmTrace st evs = (st, 0))
  ∧ (∀ st t, MAX_FAILURES ≤ st.consecutiveFailures + 1 →
      (t + FAILURE_COOLDOWN_MS) ∈ (loopCatchStep st t).resetTimers)
  ∧ (∀ st d, (breakerResetStep st d).consecutiveFailures = 0)
  ∧ (∀ st p r now, ((productLoopBody st p r now).1).consecutiveFailures = 0) := by
  refine ⟨?_, ?_, fun _ _ => rfl, fun _ _ _ _ => rfl⟩
  · intro st evs h
    induction evs with
    | nil => rfl
    | cons e rest ih =>
      simp [runAlarmTrace, alarmFireStep_breaker st e.1 e.2 h, noCycle, ih]
  · intro st t h
    simp [loopCatchStep, h]

/-- Witness for C4: with the breaker tripped at three failures, an alarm
firing runs nothing and leaves the state unchanged. -/
theorem C4_circuit_breaker_witness :
    runAlarmTrace stTripped [(100000, [⟨prodA, false, Except.ok true, 5⟩])]
      = (stTripped, 0) :=
  C4_circuit_breaker.1 stTripped [(100000, [⟨prodA, false, Except.ok true, 5⟩])]
    (by decide)

/-- Every check interval of a cycle starts no earlier than the cycle's
current instant. -/
theorem checkIntervals_lb (jobs : List CheckJob) :
    ∀ t0 iv, iv ∈ checkIntervals t0 jobs → t0 ≤ iv.1 := by
  induction jobs with
  | nil => intro t0 iv h; simp [checkIntervals] at h
  | cons j rest ih =>
    intro t0 iv h
    by_cases hs : j.skip
    · simp only [checkIntervals, hs, if_true] at h
      have := ih _ _ h
      omega
    · simp only [checkIntervals, hs, if_false, Bool.false_eq_true, List.mem_cons] at h
      rcases h with h | h
      · subst h; simp
      · have := ih _ _ h
        omega

/-- Before the cycle's current instant, nothing is in flight. -/
theorem inFlight_zero (jobs : List CheckJob) (t0 t : Nat) (ht : t < t0) :
    inFlight (checkIntervals t0 jobs) t = 0 := by
  have h : ∀ iv ∈ checkIntervals t0 jobs, ¬((iv.1 ≤ t && t < iv.2) = true) := by
    intro iv hiv
    have hlb := checkIntervals_lb jobs t0 iv hiv
    simp only [Bool.and_eq_true, decide_eq_true_eq]
    omega
  unfold inFlight
  rw [List.filter_eq_nil_iff.mpr h]
  rfl

/-- The sequential loop keeps at most one check in flight at any instant. -/
theorem inFlight_le_one (jobs : List CheckJob) :
    ∀ t0 t, inFlight (checkIntervals t0 jobs) t ≤ 1 := by
  induction jobs with
  | nil => intro t0 t; simp [checkIntervals, inFlight]
  | cons j rest ih =>
    intro t0 t
    by_cases hs : j.skip
    · simpa only [checkIntervals, hs, if_true] using ih (t0 + j.delayMs) t
    · have hunf : checkIntervals t0 (j :: rest)
          = (t0 + j.delayMs, t0 + j.delayMs + j.durationMs) ::
              checkIntervals (t0 + j.delayMs + j.durationMs) rest := by
        simp [checkIntervals, hs]
      rw [hunf]
      unfold inFlight
      rw [List.filter_cons]
      by_cases hc : (((t0 + j.delayMs, t0 + j.delayMs + j.durationMs).1 ≤ t
             && t < (t0 + j.delayMs, t0 + j.delayMs + j.durationMs).2) = true)
      · rw [if_pos hc]
        have ht2 : t < t0 + j.delayMs + j.durationMs := by
          simp only [Bool.and_eq_true, decide_eq_true_eq] at hc
          exact hc.2
        have hz := inFlight_zero rest (t0 + j.delayMs + j.durationMs) t ht2
        unfold inFlight at hz
        simp [hz]
      · rw [if_neg hc]
        exact ih _ t

/-- The checks of a cycle run strictly one after another, in the order of
the selected product list: each interval ends before the next begins. -/
theorem checkIntervals_chain (jobs : List CheckJob) :
    ∀ t0, List.Chain' (fun a b => a.2 ≤ b.1) (checkIntervals t0 jobs) := by
  induction jobs with
  | nil => intro t0; simp [checkIntervals]
  | cons j rest ih =>
    intro t0
    by_cases hs : j.skip
    · simpa only [checkIntervals, hs, if_true] using ih (t0 + j.delayMs)
    · have hunf : checkIntervals t0 (j :: rest)
          = (t0 + j.delayMs, t0 + j.delayMs + j.durationMs) ::
              checkIntervals (t0 + j.delayMs + j.durationMs) rest := by
        simp [checkIntervals, hs]
      rw [hunf]
      refine List.chain'_cons'.mpr ⟨?_, ih _⟩
      intro b hb
      exact checkIntervals_lb rest _ b (List.mem_of_mem_head? hb)

/-- C9: for every cycle, every queue of pending check jobs and every
instant, at most 3 stock checks are in flight (the loop is sequential, so
in fact at most one), and the admitted jobs execute in the order of the
selected list, each starting only after the previous one completed. -/
theorem C9_concurrency_bound (t0 t : Nat) (jobs : List CheckJob) :
    inFlight (checkIntervals t0 jobs) t ≤ 3
  ∧ List.Chain' (fun a b => a.2 ≤ b.1) (checkIntervals t0 jobs) :=
  ⟨Nat.le_trans (inFlight_le_one jobs t0 t) (by omega),
   checkIntervals_chain jobs t0⟩

/-- The check loop leaves the alarm, the monitoring flag and the session
tab counter untouched, and either preserves or zeroes the failure
counter. -/
theorem runCycleLoop_state_fields (l : List CycleInput) :
    ∀ st : BgState,
      (runCycleLoop st l).state.alarm = st.alarm
    ∧ (runCycleLoop st l).state.isMonitoring = st.isMonitoring
    ∧ (runCycleLoop st l).state.tabsCreatedThisSession = st.tabsCreatedThisSession
    ∧ ((runCycleLoop st l).state.consecutiveFailures = st.consecutiveFailures
       ∨ (runCycleLoop st l).state.consecutiveFailures = 0) := by
  induction l with
  | nil => intro st; exact ⟨rfl, rfl, rfl, Or.inl rfl⟩
  | cons c rest ih =>
    intro st
    by_cases hs : c.skip
    · simpa only [runCycleLoop, hs, if_true] using ih st
    · have h := ih (productLoopBody st c.product c.adapterResult c.time).1
      simp only [runCycleLoop, hs, if_false, Bool.false_eq_true]
      refine ⟨h.1, h.2.1, h.2.2.1, ?_⟩
      rcases h.2.2.2 with h4 | h4
      · exact Or.inr h4
      · exact Or.inr h4

/-- Same field facts for the whole cycle entry point. -/
theorem checkAllProductsStock_state_fields (st : BgState) (l : List CycleInput) :
      (checkAllProductsStock st l).state.alarm = st.alarm
    ∧ (checkAllProductsStock st l).state.isMonitoring = st.isMonitoring
    ∧ (checkAllProductsStock st l).state.tabsCreatedThisSession = st.tabsCreatedThisSession
    ∧ ((checkAllProductsStock st l).state.consecutiveFailures = st.consecutiveFailures
       ∨ (checkAllProductsStock st l).state.consecutiveFailures = 0) := by
  by_cases h : (st.monitoredProducts.length == 0 || st.checkoutInProgress) = true
  · simp [checkAllProductsStock, h]
  · simp only [checkAllProductsStock, h, if_false, Bool.false_eq_true]
    exact runCycleLoop_state_fields l st

/-- C10: after `stopMonitoring` (which clears all alarms) followed by
`startMonitoring`, no `checkStock` alarm exists: `startMonitoring` only
sets the flag, resets the session counters and runs one immediate check
cycle (the fifth conjunct), so an alarm firing afterwards runs no check,
and only `updateCheckInterval` re-creates the alarm. -/
theorem C10_restart_no_alarm (st : BgState) (checks checks2 : List CycleInput)
    (t s j : Nat) :
    (startMonitoringStep (stopMonitoringStep st) checks).state.alarm = none
  ∧ (startMonitoringStep (stopMonitoringStep st) checks).state.isMonitoring = true
  ∧ (startMonitoringStep (stopMonitoringStep st) checks).state.tabsCreatedThisSession = 0
  ∧ (startMonitoringStep (stopMonitoringStep st) checks).state.consecutiveFailures = 0
  ∧ startMonitoringStep (stopMonitoringStep st) checks
      = checkAllProductsStock
          { stopMonitoringStep st with isMonitoring := true
                                     , tabsCreatedThisSession := 0
                                     , consecutiveFailures := 0 } checks
  ∧ (alarmFireStep (startMonitoringStep (stopMonitoringStep st) checks).state t checks2).2 = false
  ∧ ((updateCheckIntervalStep (startMonitoringStep (stopMonitoringStep st) checks).state s j).alarm).isSome = true := by
  have base := checkAllProductsStock_state_fields
      { stopMonitoringStep st with isMonitoring := true
                                 , tabsCreatedThisSession := 0
                                 , consecutiveFailures := 0 } checks
  have halarm : (startMonitoringStep (stopMonitoringStep st) checks).state.alarm = none := base.1
  have hmon : (startMonitoringStep (stopMonitoringStep st) checks).state.isMonitoring = true := base.2.1
  have htabs : (startMonitoringStep (stopMonitoringStep st) checks).state.tabsCreatedThisSession = 0 := base.2.2.1
  have hcf : (startMonitoringStep (stopMonitoringStep st) checks).state.consecutiveFailures = 0 := by
    rcases base.2.2.2 with h | h
    · exact h
    · exact h
  refine ⟨halarm, hmon, htabs, hcf, rfl, ?_, ?_⟩
  · simp [alarmFireStep, halarm]
  · simp [updateCheckIntervalStep, setupMonitoring]

end InStockMonitor
